import Mathlib

/-!
Shallow embedding of the countdown-engine logic of the meditation-timer
component (`src/components/meditation-timer.tsx`).

The engine state is the collection of React state fields that the timer
logic reads and writes: `selectedPreset`, `totalSeconds`,
`remainingSeconds`, `isRunning`, `isCompleted`, `flashCount`,
`targetTimestamp`.  (`flashIntensity` is a floating-point animation value
written only as the literal `0` by the engine operations and otherwise
driven by the presentation-layer flash animation; it is omitted.)

The world around the engine is the localStorage slot keyed
`meditationTimer` and the notification sink (`playNotificationSound`).
The slot's contents are modelled as `Option StoredValue`: `none` when the
key is absent, `some (.parsed f)` when it holds a JSON string that parses
to the fragment `f`, and `some .corrupt` when it holds a string
`JSON.parse` rejects.  Timestamps are `Int` milliseconds, as produced by
`Date.now()`; durations (`totalSeconds`, `remainingSeconds`) are `Int`
seconds.  `notifyCalls` counts invocations of `playNotificationSound`
(the notification signal; actually hearing audio is further gated by the
user's sound toggle inside that function, a playback concern outside the
engine state).
-/

namespace AmTimer

/-- `Math.ceil(a / b)` for an integer `a` and a positive integer `b`,
as used by the source in `Math.ceil((targetTimestamp - now) / 1000)`. -/
def ceilDiv (a b : Int) : Int := (a + b - 1).fdiv b

/-- A timer preset, from the `TimerPreset` interface. -/
structure TimerPreset where
  label : String
  seconds : Int
deriving DecidableEq

/-- The `PRESETS` constant of the component. -/
def PRESETS : List TimerPreset :=
  [⟨"5 sec", 5⟩, ⟨"10 min", 10 * 60⟩, ⟨"15 min", 15 * 60⟩, ⟨"30 min", 30 * 60⟩]

/-- `PRESETS[index].seconds`; out-of-range reads (which the claims exclude)
default to `0`. -/
def presetSeconds (i : Nat) : Int := (PRESETS.getD i ⟨"", 0⟩).seconds

/-- The engine-relevant React state fields of `MeditationTimer`. -/
structure TimerState where
  selectedPreset : Nat
  totalSeconds : Int
  remainingSeconds : Int
  isRunning : Bool
  isCompleted : Bool
  flashCount : Nat
  targetTimestamp : Option Int
deriving DecidableEq

/-- The JSON record written to / read from the `meditationTimer` slot:
`{ targetTimestamp: number | null, selectedPreset, totalSeconds }`. -/
structure Fragment where
  targetTimestamp : Option Int
  selectedPreset : Nat
  totalSeconds : Int
deriving DecidableEq

/-- Contents of the localStorage slot: a string that parses to a fragment,
or one that `JSON.parse` throws on. -/
inductive StoredValue where
  | parsed (f : Fragment)
  | corrupt
deriving DecidableEq

/-- The engine state together with its world: the localStorage slot and the
number of times the notification sink has been invoked. -/
structure Sys where
  timer : TimerState
  store : Option StoredValue
  notifyCalls : Nat
deriving DecidableEq

/-- JavaScript truthiness of a `number | null` value: `null`, `0` (and `NaN`,
not representable here) are falsy. Models `if (targetTimestamp && ...)`. -/
def truthy : Option Int → Bool
  | none => false
  | some v => v != 0

/-- Initial React state: preset 0 selected, its duration loaded, not running,
not completed. -/
def initTimer : TimerState :=
  { selectedPreset := 0
    totalSeconds := presetSeconds 0
    remainingSeconds := presetSeconds 0
    isRunning := false
    isCompleted := false
    flashCount := 0
    targetTimestamp := none }

/-- A freshly mounted component over an arbitrary pre-existing slot. -/
def mkInit (store0 : Option StoredValue) : Sys :=
  { timer := initTimer, store := store0, notifyCalls := 0 }

/-- `handlePresetSelect` (lines 209–218): overwrites the preset fields and
clears the running/completed/flash flags.  It touches neither
`targetTimestamp` nor the store. -/
def handlePresetSelect (index : Nat) (s : Sys) : Sys :=
  let newSeconds := presetSeconds index
  { s with timer := { s.timer with
      selectedPreset := index
      totalSeconds := newSeconds
      remainingSeconds := newSeconds
      isRunning := false
      isCompleted := false
      flashCount := 0 } }

/-- `handleReset` (lines 255–263): back to the selected preset's full
duration, clears the deadline and the persisted slot. -/
def handleReset (s : Sys) : Sys :=
  { s with
    timer := { s.timer with
      remainingSeconds := s.timer.totalSeconds
      isRunning := false
      isCompleted := false
      flashCount := 0
      targetTimestamp := none }
    store := none }

/-- `handleStartPause` (lines 223–250).  When completed it delegates to
`handleReset`; otherwise it toggles `isRunning`.  Starting computes
`target = now + remainingSeconds * 1000` and persists
`{targetTimestamp: target, selectedPreset, totalSeconds}`; pausing clears
`targetTimestamp` and persists `{targetTimestamp: null, ...}`.  Note the
pause branch does not recompute `remainingSeconds`. -/
def handleStartPause (now : Int) (s : Sys) : Sys :=
  if s.timer.isCompleted then
    handleReset s
  else if s.timer.isRunning then
    { s with
      timer := { s.timer with isRunning := false, targetTimestamp := none }
      store := some (.parsed
        ⟨none, s.timer.selectedPreset, s.timer.totalSeconds⟩) }
  else
    let target := now + s.timer.remainingSeconds * 1000
    { s with
      timer := { s.timer with isRunning := true, targetTimestamp := some target }
      store := some (.parsed
        ⟨some target, s.timer.selectedPreset, s.timer.totalSeconds⟩) }

/-- One firing of the countdown interval callback (lines 269–289).  The
effect body is guarded by `if (!isRunning || !targetTimestamp) return`, so
the callback only exists (and fires) when `isRunning` holds and
`targetTimestamp` is truthy. -/
def tick (now : Int) (s : Sys) : Sys :=
  if s.timer.isRunning ∧ truthy s.timer.targetTimestamp then
    let t := s.timer.targetTimestamp.getD 0
    let remaining := ceilDiv (t - now) 1000
    if remaining ≤ 0 then
      { s with
        timer := { s.timer with
          remainingSeconds := 0
          isRunning := false
          isCompleted := true
          targetTimestamp := none }
        store := none
        notifyCalls := s.notifyCalls + 1 }
    else
      { s with timer := { s.timer with remainingSeconds := remaining } }
  else s

/-- The load-state-from-localStorage effect run once on mount
(lines 171–203).  A missing key does nothing; a string `JSON.parse`
rejects lands in the `catch` block, which only logs (state and slot are
left untouched).  Otherwise the three branches test
`targetTimestamp && targetTimestamp > now` and
`targetTimestamp && targetTimestamp <= now` — JavaScript truthiness, so a
`targetTimestamp` of `0` falls through to the paused/idle branch. -/
def loadState (now : Int) (s : Sys) : Sys :=
  match s.store with
  | none => s
  | some .corrupt => s
  | some (.parsed f) =>
    if truthy f.targetTimestamp ∧ f.targetTimestamp.getD 0 > now then
      { s with timer := { s.timer with
          selectedPreset := f.selectedPreset
          totalSeconds := f.totalSeconds
          remainingSeconds := ceilDiv (f.targetTimestamp.getD 0 - now) 1000
          targetTimestamp := f.targetTimestamp
          isRunning := true } }
    else if truthy f.targetTimestamp ∧ f.targetTimestamp.getD 0 ≤ now then
      { s with
        timer := { s.timer with
          selectedPreset := f.selectedPreset
          totalSeconds := f.totalSeconds
          remainingSeconds := 0
          isCompleted := true }
        store := none }
    else
      { s with timer := { s.timer with
          selectedPreset := f.selectedPreset
          totalSeconds := f.totalSeconds
          remainingSeconds := f.totalSeconds } }

/-- A preset button click (line 467–482): the buttons carry
`disabled={isRunning}`, so a click while running never reaches
`handlePresetSelect`. -/
def presetClick (index : Nat) (s : Sys) : Sys :=
  if s.timer.isRunning then s else handlePresetSelect index s

/-- The reset button click (lines 545–551): the button is disabled when
not running, not completed and the countdown is untouched. -/
def resetClick (s : Sys) : Sys :=
  if s.timer.isRunning = false ∧ s.timer.isCompleted = false ∧
      s.timer.remainingSeconds = s.timer.totalSeconds then s
  else handleReset s

/-- One user- or scheduler-driven transition of the mounted component. -/
inductive Step : Sys → Sys → Prop where
  | preset (i : Nat) (s : Sys) (h : i < PRESETS.length) :
      Step s (presetClick i s)
  | startPause (now : Int) (s : Sys) : Step s (handleStartPause now s)
  | resetBtn (s : Sys) : Step s (resetClick s)
  | tickStep (now : Int) (s : Sys) : Step s (tick now s)
  | load (now : Int) (s : Sys) : Step s (loadState now s)

/-- States reachable from a fresh mount over slot contents `store0`. -/
def Reachable (store0 : Option StoredValue) (s : Sys) : Prop :=
  Relation.ReflTransGen Step (mkInit store0) s

/-- The spec invariant `status == RUNNING ⇔ deadline is set`. -/
def Inv (s : Sys) : Prop :=
  s.timer.isRunning = s.timer.targetTimestamp.isSome

end AmTimer

namespace AmTimer

/-! ### Concrete states used by counterexamples and witnesses -/

/-- Fresh mount over an empty slot, the 600 s preset selected, started at
time 0: a RUNNING state with deadline 600000 ms and a persisted fragment. -/
def sRun600 : Sys := handleStartPause 0 (presetClick 1 (mkInit none))

/-- `sRun600` after a tick at 120000 ms and a pause there: a PAUSED state
whose slot still holds the pause-time fragment. -/
def sPaused600 : Sys := handleStartPause 120000 (tick 120000 sRun600)

/-- An idle session with 300 s remaining, matching the spec scenario
`start()` at T=0 with R=300. -/
def s300 : Sys :=
  { timer := { initTimer with totalSeconds := 300, remainingSeconds := 300 }
    store := none, notifyCalls := 0 }

/-- A mount whose slot holds a string `JSON.parse` rejects. -/
def sCorruptSys : Sys :=
  { timer := initTimer, store := some .corrupt, notifyCalls := 0 }

/-- A mount whose slot holds a fragment with an epoch-zero deadline. -/
def sZeroDl : Sys :=
  { timer := initTimer, store := some (.parsed ⟨some 0, 1, 600⟩), notifyCalls := 0 }

/-! ### Helper lemmas -/

lemma isSome_of_truthy {o : Option Int} (h : truthy o = true) :
    o.isSome = true := by
  cases o <;> simp_all [truthy]

lemma inv_preserved {s s' : Sys} (h : Step s s') (hi : Inv s) : Inv s' := by
  cases h <;>
    simp only [Inv, presetClick, handlePresetSelect, handleStartPause,
      handleReset, resetClick, tick, loadState] at hi ⊢ <;>
    repeat' split <;>
    simp_all [isSome_of_truthy]

lemma reachable_inv {store0 : Option StoredValue} {s : Sys}
    (h : Reachable store0 s) : Inv s := by
  unfold Reachable at h
  induction h with
  | refl => simp [Inv, mkInit, initTimer]
  | tail _ hstep ih => exact inv_preserved hstep ih

/-! ### Claim C1 -/

/-- Claim C1, counterexample: `handlePresetSelect` itself is not a no-op
while RUNNING.  On the running state `sRun600` it overwrites the preset,
flips `isRunning` off, and leaves the stale deadline in place, so the
session state changes. -/
theorem selectPreset_running_mutates :
    sRun600.timer.isRunning = true ∧
    handlePresetSelect 2 sRun600 ≠ sRun600 ∧
    (handlePresetSelect 2 sRun600).timer.isRunning = false ∧
    (handlePresetSelect 2 sRun600).timer.targetTimestamp = some 600000 := by
  decide

/-- Claim C1, amended: the rejection of `selectPreset` while RUNNING lives
in the presentation layer — the preset buttons carry `disabled={isRunning}`
— so the click-level operation leaves the session state unchanged for every
index. -/
theorem presetClick_running_noop (s : Sys) (i : Nat)
    (h : s.timer.isRunning = true) : presetClick i s = s := by
  simp [presetClick, h]

/-- Witness for `presetClick_running_noop` at the running state `sRun600`. -/
theorem presetClick_running_noop_witness :
    sRun600.timer.isRunning = true ∧ presetClick 2 sRun600 = sRun600 :=
  ⟨by decide, presetClick_running_noop sRun600 2 (by decide)⟩

/-! ### Claim C2 -/

/-- Claim C2: in every reachable state of the mounted component, and after
every further operation (preset click, start/pause, reset click, tick,
state load), `isRunning` equals `targetTimestamp.isSome`: the session is
RUNNING exactly when the deadline is set. -/
theorem running_iff_deadline (store0 : Option StoredValue) (s s' : Sys)
    (hr : Reachable store0 s) (hs : Step s s') : Inv s ∧ Inv s' :=
  ⟨reachable_inv hr, inv_preserved hs (reachable_inv hr)⟩

/-- Witness for `running_iff_deadline`: the fresh mount and a tick on it. -/
theorem running_iff_deadline_witness :
    Inv (mkInit none) ∧ Inv (tick 0 (mkInit none)) :=
  running_iff_deadline none (mkInit none) (tick 0 (mkInit none))
    Relation.ReflTransGen.refl (Step.tickStep 0 (mkInit none))

end AmTimer

namespace AmTimer

/-! ### Claim C3 -/

/-- Claim C3, counterexample: the pause branch of `handleStartPause` does
not recompute `remainingSeconds`.  Starting `s300` (R = 300 s) at T = 0 and
pausing at T = 120000 ms with no intervening tick leaves
`remainingSeconds = 300`, not the claimed `ceil(D - T') = 180`. -/
theorem pause_no_recompute :
    (handleStartPause 0 s300).timer.isRunning = true ∧
    (handleStartPause 0 s300).timer.targetTimestamp = some 300000 ∧
    (handleStartPause 120000 (handleStartPause 0 s300)).timer.remainingSeconds
      = 300 ∧
    (handleStartPause 120000 (handleStartPause 0 s300)).timer.remainingSeconds
      ≠ 180 := by
  decide

/-- Claim C3, amended: pausing a running, non-completed session clears the
deadline, leaves RUNNING, persists `{targetTimestamp: null, selectedPreset,
totalSeconds}`, and leaves `remainingSeconds` exactly as the last tick left
it; when a tick fires at the pause instant T = 120000 ms, the spec scenario
(start at T = 0 with R = 300) does yield `remainingSeconds = 180`. -/
theorem pause_spec_amended (now : Int) (s : Sys)
    (hrun : s.timer.isRunning = true) (hc : s.timer.isCompleted = false) :
    (handleStartPause now s).timer.targetTimestamp = none ∧
    (handleStartPause now s).timer.isRunning = false ∧
    (handleStartPause now s).timer.remainingSeconds
      = s.timer.remainingSeconds ∧
    (handleStartPause now s).store
      = some (.parsed ⟨none, s.timer.selectedPreset, s.timer.totalSeconds⟩) ∧
    (handleStartPause 120000
        (tick 120000 (handleStartPause 0 s300))).timer.remainingSeconds
      = 180 := by
  refine ⟨?_, ?_, ?_, ?_, by decide⟩ <;> simp [handleStartPause, hrun, hc]

/-- Witness for `pause_spec_amended` at the running state `sRun600`,
paused at 120000 ms. -/
theorem pause_spec_amended_witness :
    (handleStartPause 120000 sRun600).timer.targetTimestamp = none ∧
    (handleStartPause 120000 sRun600).timer.isRunning = false ∧
    (handleStartPause 120000 sRun600).timer.remainingSeconds
      = sRun600.timer.remainingSeconds ∧
    (handleStartPause 120000 sRun600).store
      = some (.parsed
          ⟨none, sRun600.timer.selectedPreset, sRun600.timer.totalSeconds⟩) ∧
    (handleStartPause 120000
        (tick 120000 (handleStartPause 0 s300))).timer.remainingSeconds
      = 180 :=
  pause_spec_amended 120000 sRun600 (by decide) (by decide)

/-! ### Claim C4 -/

/-- Claim C4, counterexample: `handlePresetSelect` does not clear the
persisted slot.  On the paused state `sPaused600`, whose slot still holds
the pause-time fragment, selecting preset 2 leaves the slot unchanged and
non-empty. -/
theorem selectPreset_keeps_store :
    sPaused600.timer.isRunning = false ∧
    sPaused600.timer.isCompleted = false ∧
    (handlePresetSelect 2 sPaused600).store = sPaused600.store ∧
    (handlePresetSelect 2 sPaused600).store ≠ none := by
  decide

/-- Claim C4, amended: in a non-running state with no deadline set (IDLE,
PAUSED or COMPLETED), `handlePresetSelect i` loads preset `i`'s duration
into `totalSeconds` and `remainingSeconds`, moves the status to IDLE
(clears the running and completed flags), and leaves the deadline absent —
but it performs no persistence clear: the slot keeps whatever it held. -/
theorem selectPreset_spec_amended (i : Nat) (s : Sys)
    (hi : i < PRESETS.length)
    (hrun : s.timer.isRunning = false)
    (htt : s.timer.targetTimestamp = none) :
    (handlePresetSelect i s).timer.selectedPreset = i ∧
    (handlePresetSelect i s).timer.totalSeconds = presetSeconds i ∧
    (handlePresetSelect i s).timer.remainingSeconds = presetSeconds i ∧
    (handlePresetSelect i s).timer.isRunning = false ∧
    (handlePresetSelect i s).timer.isCompleted = false ∧
    (handlePresetSelect i s).timer.targetTimestamp = none ∧
    (handlePresetSelect i s).store = s.store := by
  simp [handlePresetSelect, htt]

/-- Witness for `selectPreset_spec_amended` at the paused state
`sPaused600` and preset 2. -/
theorem selectPreset_spec_amended_witness :
    (handlePresetSelect 2 sPaused600).timer.selectedPreset = 2 ∧
    (handlePresetSelect 2 sPaused600).timer.totalSeconds = presetSeconds 2 ∧
    (handlePresetSelect 2 sPaused600).timer.remainingSeconds
      = presetSeconds 2 ∧
    (handlePresetSelect 2 sPaused600).timer.isRunning = false ∧
    (handlePresetSelect 2 sPaused600).timer.isCompleted = false ∧
    (handlePresetSelect 2 sPaused600).timer.targetTimestamp = none ∧
    (handlePresetSelect 2 sPaused600).store = sPaused600.store :=
  selectPreset_spec_amended 2 sPaused600 (by decide) (by decide) (by decide)

/-! ### Claim C5 -/

/-- Claim C5, counterexample: the `catch` block of the load effect only
logs; it does not clear the corrupt slot.  After loading over a slot that
fails to parse, the slot still holds the corrupt string. -/
theorem corrupt_slot_not_cleared :
    (loadState 1000 sCorruptSys).store = some .corrupt ∧
    (loadState 1000 sCorruptSys).store ≠ none := by
  decide

/-- Claim C5, amended: a malformed persisted fragment is treated as absent
— the load effect leaves the whole system untouched, so a fresh mount
stays at IDLE with the default preset — but the corrupt slot is NOT
cleared from the store. -/
theorem corrupt_load_fresh (now : Int) (s : Sys)
    (h : s.store = some .corrupt) :
    loadState now s = s ∧
    (loadState now (mkInit (some .corrupt))).timer = initTimer := by
  constructor <;> simp [loadState, h, mkInit]

/-- Witness for `corrupt_load_fresh` at the corrupt-slot mount. -/
theorem corrupt_load_fresh_witness :
    loadState 1000 sCorruptSys = sCorruptSys ∧
    (loadState 1000 (mkInit (some .corrupt))).timer = initTimer :=
  corrupt_load_fresh 1000 sCorruptSys (by decide)

end AmTimer

namespace AmTimer

/-! ### Claim C6 -/

/-- Claim C6, counterexample: a fragment whose deadline is present but
equal to `0` (≤ now = 1000) is not recovered as COMPLETED: the load effect
tests the deadline for truthiness, so `sZeroDl` lands in the paused/idle
branch with `remainingSeconds = totalSeconds` and the slot left in place. -/
theorem zero_deadline_breaks_elapsed_claim :
    sZeroDl.store = some (.parsed ⟨some 0, 1, 600⟩) ∧
    (0 : Int) ≤ 1000 ∧
    (loadState 1000 sZeroDl).timer.isCompleted = false ∧
    (loadState 1000 sZeroDl).timer.remainingSeconds ≠ 0 ∧
    (loadState 1000 sZeroDl).store ≠ none := by
  decide

/-- Claim C6, amended: for every fragment whose deadline is present,
NONZERO and `≤ now`, startup recovery restores the preset identity, sets
`remainingSeconds = 0` and `status = COMPLETED`, clears the persisted
slot, and does not invoke the notification sink. -/
theorem elapsed_recovery_amended (now v : Int) (f : Fragment) (s : Sys)
    (hstore : s.store = some (.parsed f))
    (htt : f.targetTimestamp = some v)
    (hnz : v ≠ 0) (hle : v ≤ now) :
    (loadState now s).timer.selectedPreset = f.selectedPreset ∧
    (loadState now s).timer.totalSeconds = f.totalSeconds ∧
    (loadState now s).timer.remainingSeconds = 0 ∧
    (loadState now s).timer.isCompleted = true ∧
    (loadState now s).store = none ∧
    (loadState now s).notifyCalls = s.notifyCalls := by
  have hng : ¬ v > now := not_lt.mpr hle
  simp [loadState, hstore, htt, truthy, hnz, hle, hng]

/-- Witness for `elapsed_recovery_amended`: a slot with deadline 5000 ms
recovered at now = 15000 ms. -/
theorem elapsed_recovery_amended_witness :
    (loadState 15000
        (mkInit (some (.parsed ⟨some 5000, 2, 900⟩)))).timer.selectedPreset
      = 2 ∧
    (loadState 15000
        (mkInit (some (.parsed ⟨some 5000, 2, 900⟩)))).timer.totalSeconds
      = 900 ∧
    (loadState 15000
        (mkInit (some (.parsed ⟨some 5000, 2, 900⟩)))).timer.remainingSeconds
      = 0 ∧
    (loadState 15000
        (mkInit (some (.parsed ⟨some 5000, 2, 900⟩)))).timer.isCompleted
      = true ∧
    (loadState 15000 (mkInit (some (.parsed ⟨some 5000, 2, 900⟩)))).store
      = none ∧
    (loadState 15000 (mkInit (some (.parsed ⟨some 5000, 2, 900⟩)))).notifyCalls
      = (mkInit (some (.parsed ⟨some 5000, 2, 900⟩))).notifyCalls :=
  elapsed_recovery_amended 15000 5000 ⟨some 5000, 2, 900⟩
    (mkInit (some (.parsed ⟨some 5000, 2, 900⟩)))
    (by decide) (by decide) (by decide) (by decide)

/-! ### Claim C7 -/

/-- Claim C7: startup recovery at a non-negative `now`.  Future deadline
(`some v` with `v > now`): the preset identity is restored,
`remainingSeconds = ceil((v - now)/1000)`, the session is RUNNING and the
deadline is kept.  Absent deadline (`none`), loading over mount-time state
(not running, not completed, no deadline): the preset identity is
restored, `remainingSeconds = totalSeconds`, and the session stays IDLE. -/
theorem recovery_restore (now v : Int) (hnow : 0 ≤ now)
    (s1 : Sys) (f : Fragment)
    (h1 : s1.store = some (.parsed f))
    (hf : f.targetTimestamp = some v) (hv : v > now)
    (s2 : Sys) (g : Fragment)
    (h2 : s2.store = some (.parsed g))
    (hg : g.targetTimestamp = none)
    (hidle : s2.timer.isRunning = false)
    (hcomp : s2.timer.isCompleted = false)
    (htt2 : s2.timer.targetTimestamp = none) :
    ((loadState now s1).timer.selectedPreset = f.selectedPreset ∧
     (loadState now s1).timer.totalSeconds = f.totalSeconds ∧
     (loadState now s1).timer.remainingSeconds = ceilDiv (v - now) 1000 ∧
     (loadState now s1).timer.isRunning = true ∧
     (loadState now s1).timer.targetTimestamp = some v) ∧
    ((loadState now s2).timer.selectedPreset = g.selectedPreset ∧
     (loadState now s2).timer.totalSeconds = g.totalSeconds ∧
     (loadState now s2).timer.remainingSeconds = g.totalSeconds ∧
     (loadState now s2).timer.isRunning = false ∧
     (loadState now s2).timer.isCompleted = false ∧
     (loadState now s2).timer.targetTimestamp = none) := by
  have hnz : v ≠ 0 := by omega
  constructor
  · simp [loadState, h1, hf, truthy, hnz, hv]
  · simp [loadState, h2, hg, truthy, hidle, hcomp, htt2]

/-- Witness for `recovery_restore`: a running slot (deadline 605000 ms at
now = 5000 ms) and a deadline-free slot recovered on fresh mounts. -/
theorem recovery_restore_witness :
    ((loadState 5000
        (mkInit (some (.parsed ⟨some 605000, 1, 600⟩)))).timer.selectedPreset
      = 1 ∧
     (loadState 5000
        (mkInit (some (.parsed ⟨some 605000, 1, 600⟩)))).timer.totalSeconds
      = 600 ∧
     (loadState 5000
        (mkInit (some (.parsed ⟨some 605000, 1, 600⟩)))).timer.remainingSeconds
      = ceilDiv (605000 - 5000) 1000 ∧
     (loadState 5000
        (mkInit (some (.parsed ⟨some 605000, 1, 600⟩)))).timer.isRunning
      = true ∧
     (loadState 5000
        (mkInit (some (.parsed ⟨some 605000, 1, 600⟩)))).timer.targetTimestamp
      = some 605000) ∧
    ((loadState 5000
        (mkInit (some (.parsed ⟨none, 3, 1800⟩)))).timer.selectedPreset
      = 3 ∧
     (loadState 5000
        (mkInit (some (.parsed ⟨none, 3, 1800⟩)))).timer.totalSeconds
      = 1800 ∧
     (loadState 5000
        (mkInit (some (.parsed ⟨none, 3, 1800⟩)))).timer.remainingSeconds
      = 1800 ∧
     (loadState 5000
        (mkInit (some (.parsed ⟨none, 3, 1800⟩)))).timer.isRunning = false ∧
     (loadState 5000
        (mkInit (some (.parsed ⟨none, 3, 1800⟩)))).timer.isCompleted = false ∧
     (loadState 5000
        (mkInit (some (.parsed ⟨none, 3, 1800⟩)))).timer.targetTimestamp
      = none) :=
  recovery_restore 5000 605000 (by decide)
    (mkInit (some (.parsed ⟨some 605000, 1, 600⟩))) ⟨some 605000, 1, 600⟩
    (by decide) (by decide) (by decide)
    (mkInit (some (.parsed ⟨none, 3, 1800⟩))) ⟨none, 3, 1800⟩
    (by decide) (by decide) (by decide) (by decide) (by decide)

end AmTimer

namespace AmTimer

/-! ### Claim C8 -/

/-- Claim C8: a tick on a running session whose deadline `t` satisfies
`ceil((t - now)/1000) ≤ 0` sets `remainingSeconds = 0`, moves to
COMPLETED, clears the deadline and the persisted slot, and invokes the
notification sink exactly once; and on any session that is not running —
in particular every completed one — a tick is the identity, so further
ticks neither re-fire the notification nor change `remainingSeconds`. -/
theorem tick_completion_once (now t : Int) (s : Sys)
    (hrun : s.timer.isRunning = true)
    (htt : s.timer.targetTimestamp = some t) (hnz : t ≠ 0)
    (hle : ceilDiv (t - now) 1000 ≤ 0)
    (now2 : Int) (s2 : Sys) (h2 : s2.timer.isRunning = false) :
    (tick now s).timer.remainingSeconds = 0 ∧
    (tick now s).timer.isCompleted = true ∧
    (tick now s).timer.isRunning = false ∧
    (tick now s).timer.targetTimestamp = none ∧
    (tick now s).store = none ∧
    (tick now s).notifyCalls = s.notifyCalls + 1 ∧
    tick now2 s2 = s2 := by
  refine ⟨?_, ?_, ?_, ?_, ?_, ?_, ?_⟩ <;>
    simp [tick, hrun, htt, truthy, hnz, hle, h2]

/-- Witness for `tick_completion_once`: `sRun600` (deadline 600000 ms)
ticked at 600000 ms completes and notifies; the resulting completed state
is untouched by a further tick at 601000 ms. -/
theorem tick_completion_once_witness :
    (tick 600000 sRun600).timer.remainingSeconds = 0 ∧
    (tick 600000 sRun600).timer.isCompleted = true ∧
    (tick 600000 sRun600).timer.isRunning = false ∧
    (tick 600000 sRun600).timer.targetTimestamp = none ∧
    (tick 600000 sRun600).store = none ∧
    (tick 600000 sRun600).notifyCalls = sRun600.notifyCalls + 1 ∧
    tick 601000 (tick 600000 sRun600) = tick 600000 sRun600 :=
  tick_completion_once 600000 600000 sRun600
    (by decide) (by decide) (by decide) (by decide)
    601000 (tick 600000 sRun600) (by decide)

/-! ### Claim C9 -/

/-- Claim C9: starting a non-running, non-completed session (IDLE or
PAUSED) at `now` with `remainingSeconds = R` sets the deadline to
`now + R * 1000` ms (the spec's `deadline = T + R` with time in seconds),
marks it RUNNING, keeps `R`, and persists `{targetTimestamp, selectedPreset,
totalSeconds}`; the spec scenario in ms: selecting the 600 s preset and
starting at T = 1000000 yields deadline 1600000, and a tick at 1599000
yields `remainingSeconds = 1`. -/
theorem start_spec (now : Int) (s : Sys)
    (hrun : s.timer.isRunning = false)
    (hcomp : s.timer.isCompleted = false) :
    (handleStartPause now s).timer.targetTimestamp
      = some (now + s.timer.remainingSeconds * 1000) ∧
    (handleStartPause now s).timer.isRunning = true ∧
    (handleStartPause now s).timer.remainingSeconds
      = s.timer.remainingSeconds ∧
    (handleStartPause now s).store
      = some (.parsed ⟨some (now + s.timer.remainingSeconds * 1000),
          s.timer.selectedPreset, s.timer.totalSeconds⟩) ∧
    (handleStartPause 1000000 (presetClick 1 (mkInit none))).timer.targetTimestamp
      = some 1600000 ∧
    (tick 1599000
        (handleStartPause 1000000 (presetClick 1 (mkInit none)))).timer.remainingSeconds
      = 1 := by
  refine ⟨?_, ?_, ?_, ?_, by decide, by decide⟩ <;>
    simp [handleStartPause, hrun, hcomp]

/-- Witness for `start_spec`: the fresh mount (5 s preset, idle) started
at time 0. -/
theorem start_spec_witness :
    (handleStartPause 0 (mkInit none)).timer.targetTimestamp
      = some (0 + (mkInit none).timer.remainingSeconds * 1000) ∧
    (handleStartPause 0 (mkInit none)).timer.isRunning = true ∧
    (handleStartPause 0 (mkInit none)).timer.remainingSeconds
      = (mkInit none).timer.remainingSeconds ∧
    (handleStartPause 0 (mkInit none)).store
      = some (.parsed ⟨some (0 + (mkInit none).timer.remainingSeconds * 1000),
          (mkInit none).timer.selectedPreset,
          (mkInit none).timer.totalSeconds⟩) ∧
    (handleStartPause 1000000 (presetClick 1 (mkInit none))).timer.targetTimestamp
      = some 1600000 ∧
    (tick 1599000
        (handleStartPause 1000000 (presetClick 1 (mkInit none)))).timer.remainingSeconds
      = 1 :=
  start_spec 0 (mkInit none) (by decide) (by decide)

/-! ### Claim C10 -/

/-- Claim C10: a loaded fragment with `targetTimestamp` exactly `0` (an
epoch-zero deadline, ≤ any non-negative `now`) is not recovered as
COMPLETED: the truthiness test skips both deadline branches, so recovery
over mount-time state restores the preset identity with
`remainingSeconds = totalSeconds`, stays IDLE, and leaves the persisted
slot in place. -/
theorem zero_deadline_recovery (now : Int) (s : Sys) (f : Fragment)
    (hstore : s.store = some (.parsed f))
    (htt : f.targetTimestamp = some 0)
    (hnow : 0 ≤ now)
    (hidle : s.timer.isRunning = false)
    (hcomp : s.timer.isCompleted = false)
    (htt0 : s.timer.targetTimestamp = none) :
    (loadState now s).timer.selectedPreset = f.selectedPreset ∧
    (loadState now s).timer.totalSeconds = f.totalSeconds ∧
    (loadState now s).timer.remainingSeconds = f.totalSeconds ∧
    (loadState now s).timer.isRunning = false ∧
    (loadState now s).timer.isCompleted = false ∧
    (loadState now s).timer.targetTimestamp = none ∧
    (loadState now s).store = s.store := by
  simp [loadState, hstore, htt, truthy, hidle, hcomp, htt0]

/-- Witness for `zero_deadline_recovery` at the epoch-zero slot `sZeroDl`
and now = 1000 ms. -/
theorem zero_deadline_recovery_witness :
    (loadState 1000 sZeroDl).timer.selectedPreset = 1 ∧
    (loadState 1000 sZeroDl).timer.totalSeconds = 600 ∧
    (loadState 1000 sZeroDl).timer.remainingSeconds = 600 ∧
    (loadState 1000 sZeroDl).timer.isRunning = false ∧
    (loadState 1000 sZeroDl).timer.isCompleted = false ∧
    (loadState 1000 sZeroDl).timer.targetTimestamp = none ∧
    (loadState 1000 sZeroDl).store = sZeroDl.store :=
  zero_deadline_recovery 1000 sZeroDl ⟨some 0, 1, 600⟩
    (by decide) (by decide) (by decide) (by decide) (by decide) (by decide)

end AmTimer
